import Mathlib

/-!
Shallow embedding of the request-handling and fault-injection engine of
`basvanbeek/topology-tester` (Go), covering:

* the runtime behavior store and its setter endpoints
  (`internal/service` package: `setErrors`, `setDoubleHeaders`,
  `setLatency`),
* the terminal echo responder (`echoHandler`),
* the concurrency emulator (`emulateConcurrency`),
* the proxy chaining engine (`proxy` and its `ModifyResponse` hook),
* the tracing-abstraction facade validation
  (`pkg/observability` `Service.Validate`).

Handlers that perform I/O are embedded as functions producing an explicit
trace of writer/tracer events (`Event`): each constructor records one call
the Go handler makes on the `http.ResponseWriter`, the tracer, or the
outbound transport, in program order.  Probabilistic draws
(`rand.Int31n(100)`) are threaded in as explicit integer parameters.
Go `time.Duration` values are embedded as `Int` nanosecond counts, and
Go `http.Header` as an order-preserving list of key/value pairs (Go's
`map[string][]string` preserves per-key value order, which is the only
header ordering the program observes).
-/

namespace TopologyTester

/-! ### Go standard-library string parsing, modelled

The engine relies on `strconv.Atoi`, `time.ParseDuration` and
`time.Duration.String` (Go 1.17, per `go.mod`).  They are modelled here
over `Int` nanoseconds / `Nat` digits, including the int64
overflow-error paths of `leadingInt` and `ParseDuration` and the int64
range of `Atoi`, so success/failure agrees with Go on every input.  The
one idealization left: Go computes the contribution of a fractional
component through `float64` where this model uses exact floor division;
the two agree on success/failure and sign, and on the value except for
sub-nanosecond rounding of fractions of a unit. -/

/-- Largest int64 value, `2^63 - 1`. -/
def maxInt64 : Nat := 9223372036854775807

/-- Digit-string value: `some` of the decimal value when the (nonempty)
character list is all ASCII digits, `none` otherwise. -/
def digitsValAux : List Char → Nat → Option Nat
  | [], acc => some acc
  | c :: r, acc =>
    if c.isDigit then digitsValAux r (acc * 10 + (c.toNat - 48)) else none

/-- Nonempty all-digit string to its value. -/
def digitsVal : List Char → Option Nat
  | [] => none
  | l => digitsValAux l 0

/-- Model of Go `strconv.Atoi`: optional sign followed by one or more
digits; anything else, or a value outside `[-2^63, 2^63-1]`, is an
error (`none`). -/
def goAtoi (s : String) : Option Int :=
  match s.data with
  | '+' :: r =>
    (digitsVal r).bind fun n => if n > maxInt64 then none else some (n : Int)
  | '-' :: r =>
    (digitsVal r).bind fun n => if n > maxInt64 + 1 then none else some (-(n : Int))
  | l =>
    (digitsVal l).bind fun n => if n > maxInt64 then none else some (n : Int)

/-- Go `time.leadingInt`: consume leading decimal digits, returning their
value and the rest; `none` on int64 overflow (value above `2^63 - 1`). -/
def takeLeadingInt : List Char → Nat → Option (Nat × List Char)
  | [], acc => some (acc, [])
  | c :: r, acc =>
    if c.isDigit then
      if acc > maxInt64 / 10 then none
      else
        let acc' := acc * 10 + (c.toNat - 48)
        if acc' > maxInt64 then none else takeLeadingInt r acc'
    else some (acc, c :: r)

/-- Go `time.leadingFraction`: consume leading decimal digits of a
fraction, returning the digits' value, the scale `10^(number of kept
digits)`, and the rest.  On overflow it stops accumulating (keeping
value and scale) but still consumes digits, exactly as Go does. -/
def takeLeadingFrac : List Char → Nat → Nat → Bool → Nat × Nat × List Char
  | [], acc, scale, _ => (acc, scale, [])
  | c :: r, acc, scale, ovf =>
    if c.isDigit then
      if ovf ∨ acc > maxInt64 / 10 then takeLeadingFrac r acc scale true
      else
        let y := acc * 10 + (c.toNat - 48)
        if y > maxInt64 then takeLeadingFrac r acc scale true
        else takeLeadingFrac r y (scale * 10) ovf
    else (acc, scale, c :: r)

/-- Unit suffix table of Go `time.ParseDuration`, in nanoseconds. -/
def unitVal : List Char → Option Nat
  | ['n', 's'] => some 1
  | ['u', 's'] => some 1000
  | ['µ', 's'] => some 1000
  | ['μ', 's'] => some 1000
  | ['m', 's'] => some 1000000
  | ['s'] => some 1000000000
  | ['m'] => some 60000000000
  | ['h'] => some 3600000000000
  | _ => none

/-- One `[number][unit]` component at a time, as in Go `time.ParseDuration`'s
main loop, with its overflow checks (`v > (2^63-1)/unit` before the unit
multiply, the post-fraction check, and the running-total check); `fuel`
bounds the recursion (each step consumes ≥ 1 char). -/
def parseUnits : Nat → List Char → Nat → Option Nat
  | 0, _, _ => none
  | _ + 1, [], acc => some acc
  | fuel + 1, c :: rest, acc =>
    if ¬(c = '.' ∨ c.isDigit) then none
    else
      let s := c :: rest
      match takeLeadingInt s 0 with
      | none => none
      | some (v, s1) =>
        let pre : Bool := s1.length < s.length
        let (f, scale, s2, post) :=
          match s1 with
          | '.' :: r =>
            let (f, scale, s2) := takeLeadingFrac r 0 1 false
            (f, scale, s2, decide (s2.length < r.length))
          | _ => (0, 1, s1, false)
        if ¬(pre || post) then none
        else
          let u := s2.takeWhile (fun ch => ¬(ch = '.' ∨ ch.isDigit))
          let s3 := s2.dropWhile (fun ch => ¬(ch = '.' ∨ ch.isDigit))
          if u.isEmpty then none
          else
            match unitVal u with
            | none => none
            | some unit =>
              if v > maxInt64 / unit then none
              else
                let value := v * unit
                let value := if 0 < f then value + f * unit / scale else value
                if 0 < f ∧ value > maxInt64 then none
                else
                  let acc' := acc + value
                  if acc' > maxInt64 then none
                  else parseUnits fuel s3 acc'

/-- Model of Go `time.ParseDuration`: optional sign, the special case
`"0"`, then one or more `[number][unit]` components; result in
nanoseconds. -/
def goParseDuration (str : String) : Option Int :=
  let (neg, s) :=
    match str.data with
    | '-' :: r => (true, r)
    | '+' :: r => (false, r)
    | r => (false, r)
  if s = ['0'] then some 0
  else if s = [] then none
  else (parseUnits (s.length + 1) s 0).map
    (fun n => if neg then -(n : Int) else (n : Int))

/-- Decimal digits of `v` left-padded to `prec` places, trailing zeros
dropped, prefixed with `"."` when anything remains (Go `fmtFrac`). -/
def fracStr (v prec : Nat) : String :=
  let digits := (Nat.toDigits 10 v).map id
  let padded := List.replicate (prec - digits.length) '0' ++ digits
  let trimmed := (padded.reverse.dropWhile (fun c => c = '0')).reverse
  if trimmed.isEmpty then "" else "." ++ String.mk trimmed

/-- Model of Go `time.Duration.String` on nanosecond counts. -/
def goDurationString (d : Int) : String :=
  if d = 0 then "0s"
  else
    let u := d.natAbs
    let sign := if d < 0 then "-" else ""
    if u < 1000 then sign ++ toString u ++ "ns"
    else if u < 1000000 then
      sign ++ toString (u / 1000) ++ fracStr (u % 1000) 3 ++ "µs"
    else if u < 1000000000 then
      sign ++ toString (u / 1000000) ++ fracStr (u % 1000000) 6 ++ "ms"
    else
      let secs := u / 1000000000
      let sPart := toString (secs % 60) ++ fracStr (u % 1000000000) 9 ++ "s"
      let mins := secs / 60
      if mins = 0 then sign ++ sPart
      else
        let mPart := toString (mins % 60) ++ "m" ++ sPart
        let hrs := mins / 60
        if hrs = 0 then sign ++ mPart
        else sign ++ toString hrs ++ "h" ++ mPart

/-- Two's-complement int64 wrap of an unbounded integer, as Go arithmetic
silently performs on overflow. -/
def wrapInt64 (n : Int) : Int :=
  let m := n % 18446744073709551616
  if m ≥ 9223372036854775808 then m - 18446744073709551616 else m

/-- The dual-format duration argument parsing shared by `setLatency` and
`emulateConcurrency`: first `time.ParseDuration`, then on failure
`strconv.Atoi` with the bare integer interpreted as milliseconds.  The
Go conversion `time.Duration(i) * time.Millisecond` is int64
multiplication, which wraps silently when `i` is large. -/
def parseLatencyArg (s : String) : Option Int :=
  match goParseDuration s with
  | some d => some d
  | none => (goAtoi s).map (fun i => wrapInt64 (i * 1000000))

/-! ### Data model -/

/-- The mutex-guarded service globals of `service.Endpoints`
(`internal/service/service.go`): error percentage, double-header
percentage, injected latency (nanoseconds) and the failure-absorption
flag.  Handlers snapshot the fields they need under `mtx.RLock`. -/
structure EpState where
  errors : Int
  headers : Int
  duration : Int
  handleFailures : Bool
deriving DecidableEq, Repr

/-- The uniform JSON response envelope (`response` in
`internal/service`).  `message`, `error` and `headers` carry Go's
`omitempty` zero values as `""` / `none`. -/
structure response where
  service : String
  code : Int
  traceID : String
  message : String
  error : Option String
  headers : Option (List (String × String))
deriving DecidableEq, Repr

/-- The `pkg.Error` constants of `internal/service/service.go`. -/
def errProxyService : String := "invalid or no proxy service set"

def errPercentage : String := "expected percentage value between 0 and 100"

def errDuration : String := "expected a zero or positive duration"

def errConcurrency : String := "invalid or no concurrency type set"

def errInternal : String := "internal service failure occurred"

def errHandleFailures : String := "expected boolean value for handling failures"

/-- One observable call a handler makes, in program order: response-writer
calls, tracer calls, sleeps, and outbound transport calls. -/
inductive Event where
  | sleep (d : Int)
  | writeHeader (status : Int)
  | addHeader (key value : String)
  | writeBody (res : response)
  | spanStart (name : String)
  | spanTag (key value : String)
  | spanFinish (name : String)
  | outboundCall (host path : String) (headers : List (String × String))
deriving DecidableEq, Repr

/-- `Endpoints.writeResponse`: fills in `Service` and `TraceID`, adds the
JSON content type, writes the status header when `Code > 0`, then encodes
the envelope as the body. -/
def writeResponseEvents (svcName traceID : String) (res : response) : List Event :=
  let res := { res with service := svcName, traceID := traceID }
  Event.addHeader "Content-Type" "application/json" ::
    (if res.code > 0 then [Event.writeHeader res.code] else []) ++
      [Event.writeBody res]

/-- Envelope literal helper: the zero `response` a handler builds before
`writeResponse` fills in service and trace identifiers. -/
def mkRes (code : Int) (message : String) (error : Option String)
    (headers : Option (List (String × String))) : response :=
  { service := "", code := code, traceID := "", message := message,
    error := error, headers := headers }

/-! ### Trace observations -/

/-- Envelopes written on the trace, in order. -/
def bodies (tr : List Event) : List response :=
  tr.filterMap fun e =>
    match e with
    | Event.writeBody r => some r
    | _ => none

/-- Number of outbound transport calls on the trace. -/
def outboundCount (tr : List Event) : Nat :=
  (tr.filter fun e =>
    match e with
    | Event.outboundCall _ _ _ => true
    | _ => false).length

/-- Names of finished spans, in finish order. -/
def finishNames (tr : List Event) : List String :=
  tr.filterMap fun e =>
    match e with
    | Event.spanFinish n => some n
    | _ => none

/-- Names of started spans, in start order. -/
def startNames (tr : List Event) : List String :=
  tr.filterMap fun e =>
    match e with
    | Event.spanStart n => some n
    | _ => none

/-- Whether an event writes the response body. -/
def isBody : Event → Bool
  | Event.writeBody _ => true
  | _ => false

/-- The trace portion emitted before the first body write. -/
def beforeBody (tr : List Event) : List Event :=
  tr.takeWhile (fun e => !(isBody e))

/-! ### Behavior-store setter endpoints -/

/-- `Endpoints.setErrors`: parse the `percentage` path variable with
`strconv.Atoi`, reject anything outside `[0,100]` with `errPercentage`
and an unchanged store, otherwise store the value and confirm. -/
def setErrors (st : EpState) (svc tid : String) (pct : Option String) :
    EpState × List Event :=
  match pct with
  | none => (st, writeResponseEvents svc tid (mkRes 400 "" (some errPercentage) none))
  | some s =>
    match goAtoi s with
    | none => (st, writeResponseEvents svc tid (mkRes 400 "" (some errPercentage) none))
    | some i =>
      if i < 0 ∨ 100 < i then
        (st, writeResponseEvents svc tid (mkRes 400 "" (some errPercentage) none))
      else
        ({ st with errors := i },
          writeResponseEvents svc tid
            (mkRes 200 ("errors percentage set to: " ++ toString i ++ "%") none none))

/-- `Endpoints.setDoubleHeaders`: identical validation to `setErrors`,
storing into the double-header percentage field. -/
def setDoubleHeaders (st : EpState) (svc tid : String) (pct : Option String) :
    EpState × List Event :=
  match pct with
  | none => (st, writeResponseEvents svc tid (mkRes 400 "" (some errPercentage) none))
  | some s =>
    match goAtoi s with
    | none => (st, writeResponseEvents svc tid (mkRes 400 "" (some errPercentage) none))
    | some i =>
      if i < 0 ∨ 100 < i then
        (st, writeResponseEvents svc tid (mkRes 400 "" (some errPercentage) none))
      else
        ({ st with headers := i },
          writeResponseEvents svc tid
            (mkRes 200 ("double headers percentage set to: " ++ toString i ++ "%") none none))

/-- `Endpoints.setLatency`: parse the `duration` path variable as a Go
duration string, falling back to a bare integer of milliseconds; reject
negative results with `errDuration` and an unchanged store. -/
def setLatency (st : EpState) (svc tid : String) (dur : Option String) :
    EpState × List Event :=
  match dur with
  | none => (st, writeResponseEvents svc tid (mkRes 400 "" (some errDuration) none))
  | some s =>
    match parseLatencyArg s with
    | none => (st, writeResponseEvents svc tid (mkRes 400 "" (some errDuration) none))
    | some d =>
      if d < 0 then
        (st, writeResponseEvents svc tid (mkRes 400 "" (some errDuration) none))
      else
        ({ st with duration := d },
          writeResponseEvents svc tid
            (mkRes 200 ("duration set to: " ++ goDurationString d) none none))

/-! ### Terminal echo responder -/

/-- `Endpoints.echoHandler`: snapshot `{duration, headers, errors}` under
the read lock, sleep the injected latency, roll the error probability
(`errDraw` stands for `rand.Int31n(100)`), then on survival roll the
double-header probability (`hdrDraw`) and finally echo the received
request headers in a success envelope. -/
def echoHandler (st : EpState) (svc tid : String)
    (reqHeaders : List (String × String)) (errDraw hdrDraw : Int) : List Event :=
  Event.sleep st.duration ::
    (if errDraw < st.errors then
      writeResponseEvents svc tid (mkRes 500 "" (some errInternal) none)
    else
      (if hdrDraw < st.headers then
        [Event.writeHeader 200,
          Event.addHeader "Content-Type" "text/html",
          Event.addHeader "Content-Type" "application/json"]
      else []) ++
        writeResponseEvents svc tid (mkRes 200 "" none (some reqHeaders)))

/-! ### Proxy chaining engine -/

/-- `r.Header.Add("Proxied-By", ep.ServiceName)` on a clone of the inbound
headers: Go appends the value at the end of the key's value slice. -/
def forwardHeaders (hdrs : List (String × String)) (svc : String) :
    List (String × String) :=
  hdrs ++ [("Proxied-By", svc)]

/-- Values recorded for the `Proxied-By` key, oldest first. -/
def proxiedByValues (hdrs : List (String × String)) : List String :=
  hdrs.filterMap fun p => if p.1 = "Proxied-By" then some p.2 else none

/-- Per-rune model of Go `unicode.ToLower` for the comparisons the engine
makes.  It agrees with Go on every ASCII rune, and on the only two
non-ASCII code points whose Unicode simple lowercase mapping is ASCII:
U+0130 LATIN CAPITAL LETTER I WITH DOT ABOVE (→ `i`) and U+212A KELVIN
SIGN (→ `k`).  Every other non-ASCII rune lowers to a non-ASCII rune in
Go and is kept unchanged here, so equality of the mapped string with any
ASCII string (all the engine ever tests) agrees with Go on every
input. -/
def goCharToLower (c : Char) : Char :=
  if c = Char.ofNat 304 then 'i'
  else if c = Char.ofNat 8490 then 'k'
  else Char.toLower c

/-- Rune-wise model of `strings.ToLower` (see `goCharToLower`). -/
def goToLower (s : String) : String :=
  String.mk (s.data.map goCharToLower)

/-- `strings.TrimPrefix`: drop `pre` when it leads `s`, else `s` itself. -/
def goTrimLeading (s pre : String) : String :=
  if pre.data.isPrefixOf s.data then String.mk (s.data.drop pre.data.length) else s

/-- `Endpoints.proxy` up to handing the rewritten request to the
tracing-wrapped reverse proxy: resolve the `service` path variable
(failing with `errProxyService`), snapshot `{duration, errors,
handleFailures}`, sleep the latency, short-circuit with a synthesized 500
`errInternal` envelope when `draw < errors` (`draw` stands for
`rand.Int31n(100)`), and otherwise forward to the next hop with the
`Proxied-By` trail extended by this service's name and the consumed
`/proxy/{host}` directive stripped from the path. -/
def proxy (st : EpState) (svc tid : String) (serviceVar : Option String)
    (urlPath : String) (reqHeaders : List (String × String)) (draw : Int) :
    List Event :=
  match serviceVar with
  | none => writeResponseEvents svc tid (mkRes 400 "" (some errProxyService) none)
  | some host =>
    Event.sleep st.duration ::
      (if draw < st.errors then
        writeResponseEvents svc tid (mkRes 500 "" (some errInternal) none)
      else
        [Event.outboundCall host (goTrimLeading urlPath ("/proxy/" ++ host))
          (forwardHeaders reqHeaders svc)])

/-- Outcome of the `ModifyResponse` hook the proxy installs when the
failure-absorption flag is set: either let the downstream response pass
through the reverse proxy unaltered, or write a local envelope and bail. -/
inductive ProxyDecision where
  | forward
  | substitute (events : List Event)
deriving DecidableEq, Repr

/-- The `p.ModifyResponse` closure installed by `Endpoints.proxy` when
`handleFailures` is set: a 200 downstream status proceeds unaltered; any
other status is absorbed into a local 200 envelope whose message is
`"<svc> called <target> and got error return: <body>"`, after which the
proxy logic is bailed out of.  `target` is `svc+path`, the rewritten
downstream URL. -/
def modifyResponse (svc tid target : String) (status : Int) (body : String) :
    ProxyDecision :=
  if status = 200 then ProxyDecision.forward
  else
    ProxyDecision.substitute
      (writeResponseEvents svc tid
        (mkRes 200 (svc ++ " called " ++ target ++ " and got error return: " ++ body)
          none none))

/-! ### Concurrency emulator -/

/-- One synthetic unit of work `proc(i)` in `Endpoints.emulateConcurrency`:
start the local span `proc-i`, tag it with the requested duration's
string form, sleep, and (deferred) finish the span. -/
def procEvents (d : Int) (i : Nat) : List Event :=
  [Event.spanStart ("proc-" ++ toString i),
    Event.spanTag "duration" (goDurationString d),
    Event.sleep d,
    Event.spanFinish ("proc-" ++ toString i)]

/-- `Endpoints.emulateConcurrency`: parse the optional `duration` path
variable (dual-format, rejecting parse failures and negative values with
`errDuration` before anything else), then dispatch on the lowercased
`concurrency` variable.  `serial` runs the 8 units inline in index
order; `mixed` and `parallel` run some or all units on goroutines whose
interleaving is scheduler-dependent — they are serialized here in index
order as a canonical representative (no claim depends on their
interleaving).  Any other mode writes a 400 `errConcurrency` envelope
without starting a unit.  The handler responds only after `wg.Wait()`,
i.e. after each unit's span has finished. -/
def emulateConcurrency (svc tid : String) (durVar concVar : Option String) :
    List Event :=
  let parsed : Except (List Event) Int :=
    match durVar with
    | none => Except.ok 0
    | some s =>
      match parseLatencyArg s with
      | none =>
        Except.error (writeResponseEvents svc tid (mkRes 400 "" (some errDuration) none))
      | some d =>
        if d < 0 then
          Except.error (writeResponseEvents svc tid (mkRes 400 "" (some errDuration) none))
        else Except.ok d
  match parsed with
  | Except.error ev => ev
  | Except.ok d =>
    let mode := goToLower (concVar.getD "")
    if mode = "serial" ∨ mode = "mixed" ∨ mode = "parallel" then
      ((List.range 8).flatMap fun i => procEvents d i) ++
        writeResponseEvents svc tid (mkRes 200 "ran several local spans" none none)
    else
      writeResponseEvents svc tid (mkRes 400 "" (some errConcurrency) none)

/-! ### Tracing-abstraction facade validation -/

/-- `supportedInstrumenters()` in `pkg/observability`. -/
def supportedInstrumenters : List String := ["zipkin", "skywalking"]

/-- `observability.Service.Validate`: appends one error when the selected
name is not in the supported set, and one when no provided instrumenter
carries that name; the Go method returns `nil` exactly when nothing was
appended.  `provided` is the list of `Name()`s of the configured
`Instrumenters`. -/
def obsValidate (name : String) (provided : List String) : List String :=
  (if supportedInstrumenters.contains name then []
    else ["instrumenter must be one of " ++ toString supportedInstrumenters]) ++
    (if provided.contains name then []
      else ["instrumenter " ++ name ++ " not provided"])

/-! ### Substring containment (for message-content assertions) -/

/-- `sub` occurs contiguously in `l`. -/
def isSubAux (sub : List Char) : List Char → Bool
  | [] => sub.isEmpty
  | c :: rest => sub.isPrefixOf (c :: rest) || isSubAux sub rest

/-- String substring containment. -/
def containsSub (s sub : String) : Bool :=
  isSubAux sub.data s.data

/-- Every character list is a prefix of itself. -/
theorem charsPrefixSelf (l : List Char) : l.isPrefixOf l = true := by
  induction l with
  | nil => rfl
  | cons c r ih => simp [List.isPrefixOf, ih]

/-- A list occurs in anything it terminates. -/
theorem isSubAux_append (pre sub : List Char) : isSubAux sub (pre ++ sub) = true := by
  induction pre with
  | nil =>
    cases sub with
    | nil => rfl
    | cons c r => simp [isSubAux, charsPrefixSelf]
  | cons c r ih => simp [isSubAux, ih]

/-- A string contains its own trailing segment. -/
theorem containsSub_append_right (a b : String) : containsSub (a ++ b) b = true := by
  show isSubAux b.data (a ++ b).data = true
  rw [String.data_append]
  exact isSubAux_append a.data b.data

/-! ### Claims -/

/-- C3: every call to the error-percent or duplicate-header-percent setter
with a value that is not an integer in `[0,100]` fails with the
`InvalidPercentage` error in a 400 response and leaves the stored
percentage unchanged; every integer value in `[0,100]` is stored exactly
and confirmed with a 200 message. -/
theorem percent_setters_validation (st : EpState) (svc tid s : String) :
    ((∀ i : Int, goAtoi s = some i → i < 0 ∨ 100 < i) →
      setErrors st svc tid (some s) =
        (st, writeResponseEvents svc tid (mkRes 400 "" (some errPercentage) none)) ∧
      setDoubleHeaders st svc tid (some s) =
        (st, writeResponseEvents svc tid (mkRes 400 "" (some errPercentage) none))) ∧
    (∀ i : Int, goAtoi s = some i → 0 ≤ i → i ≤ 100 →
      setErrors st svc tid (some s) =
        ({ st with errors := i },
          writeResponseEvents svc tid
            (mkRes 200 ("errors percentage set to: " ++ toString i ++ "%") none none)) ∧
      setDoubleHeaders st svc tid (some s) =
        ({ st with headers := i },
          writeResponseEvents svc tid
            (mkRes 200 ("double headers percentage set to: " ++ toString i ++ "%") none none))) := by
  constructor
  · intro hbad
    cases hA : goAtoi s with
    | none => simp [setErrors, setDoubleHeaders, hA]
    | some i =>
      have h := hbad i hA
      simp [setErrors, setDoubleHeaders, hA, if_pos h]
  · intro i hA h0 h1
    have h : ¬(i < 0 ∨ 100 < i) := by omega
    simp [setErrors, setDoubleHeaders, hA, h]

/-- Witness for C3: the out-of-range value 142 is rejected by both percent
setters leaving the store unchanged, and 37 is stored exactly. -/
theorem percent_setters_validation_witness :
    setErrors ⟨1, 2, 3, false⟩ "demosvc" "t" (some "142") =
      (⟨1, 2, 3, false⟩,
        writeResponseEvents "demosvc" "t" (mkRes 400 "" (some errPercentage) none)) ∧
    setDoubleHeaders ⟨1, 2, 3, false⟩ "demosvc" "t" (some "37") =
      (⟨1, 37, 3, false⟩,
        writeResponseEvents "demosvc" "t"
          (mkRes 200 "double headers percentage set to: 37%" none none)) := by
  have h142 : goAtoi "142" = some 142 := by decide
  refine ⟨((percent_setters_validation ⟨1, 2, 3, false⟩ "demosvc" "t" "142").1 ?_).1, ?_⟩
  · intro i h
    rw [h142] at h
    cases h
    omega
  · have h :=
      ((percent_setters_validation ⟨1, 2, 3, false⟩ "demosvc" "t" "37").2 37
        (by decide) (by decide) (by decide)).2
    simpa using h

/-- C4: for the latency setter, `"60"`, `"60ms"` and the bare integer 60
interpreted as milliseconds are equivalent accepted encodings whose
stored effect is the identical 60ms duration, and every negative parsed
duration is rejected with `InvalidDuration` leaving the store
unchanged. -/
theorem latency_setter_spec (st : EpState) (svc tid : String) :
    setLatency st svc tid (some "60") = setLatency st svc tid (some "60ms") ∧
    (setLatency st svc tid (some "60")).1.duration = 60 * 1000000 ∧
    parseLatencyArg "60" = some (60 * 1000000) ∧
    (setLatency st svc tid (some "60")).2 =
      writeResponseEvents svc tid (mkRes 200 "duration set to: 60ms" none none) ∧
    (∀ (s : String) (d : Int), parseLatencyArg s = some d → d < 0 →
      setLatency st svc tid (some s) =
        (st, writeResponseEvents svc tid (mkRes 400 "" (some errDuration) none))) := by
  have h60 : parseLatencyArg "60" = some 60000000 := by decide
  have h60ms : parseLatencyArg "60ms" = some 60000000 := by decide
  have hstr : goDurationString 60000000 = "60ms" := by decide
  refine ⟨?_, ?_, ?_, ?_, ?_⟩
  · simp [setLatency, h60, h60ms]
  · simp [setLatency, h60]
  · simpa using h60
  · simp [setLatency, h60, hstr]
  · intro s d hp hd
    simp [setLatency, hp, if_pos hd]

/-- Witness for C4: the negative encoding `"-5ms"` is rejected with the
duration error and the stored duration 3 is unchanged, while `"60"`
stores 60ms. -/
theorem latency_setter_spec_witness :
    setLatency ⟨1, 2, 3, false⟩ "demosvc" "t" (some "-5ms") =
      (⟨1, 2, 3, false⟩,
        writeResponseEvents "demosvc" "t" (mkRes 400 "" (some errDuration) none)) ∧
    (setLatency ⟨1, 2, 3, false⟩ "demosvc" "t" (some "60")).1.duration = 60 * 1000000 := by
  refine
    ⟨(latency_setter_spec ⟨1, 2, 3, false⟩ "demosvc" "t").2.2.2.2 "-5ms" (-5000000)
      (by decide) (by decide),
    (latency_setter_spec ⟨1, 2, 3, false⟩ "demosvc" "t").2.1⟩

/-- C1: with the stored error percent at 100 the proxy handler always
answers with the synthesized 500 `InternalFailure` envelope and performs
zero outbound calls; in general, for a draw in `[0,100)`, it
short-circuits (no outbound call, `InternalFailure` body) exactly when
the draw is below the stored error percent. -/
theorem proxy_error_shortcircuit (st : EpState) (svc tid host urlPath : String)
    (hdrs : List (String × String)) (draw : Int) (h0 : 0 ≤ draw) (h1 : draw < 100) :
    (st.errors = 100 →
      proxy st svc tid (some host) urlPath hdrs draw =
        Event.sleep st.duration ::
          writeResponseEvents svc tid (mkRes 500 "" (some errInternal) none) ∧
      outboundCount (proxy st svc tid (some host) urlPath hdrs draw) = 0) ∧
    (draw < st.errors ↔
      outboundCount (proxy st svc tid (some host) urlPath hdrs draw) = 0 ∧
      bodies (proxy st svc tid (some host) urlPath hdrs draw) =
        [{ service := svc, code := 500, traceID := tid, message := "",
            error := some errInternal, headers := none }]) := by
  constructor
  · intro he
    have hd : draw < st.errors := by omega
    simp [proxy, if_pos hd, outboundCount, bodies, writeResponseEvents, mkRes]
  · constructor
    · intro hd
      simp [proxy, if_pos hd, outboundCount, bodies, writeResponseEvents, mkRes]
    · intro h
      by_contra hnot
      have h1 : outboundCount (proxy st svc tid (some host) urlPath hdrs draw) = 1 := by
        simp [proxy, if_neg hnot, outboundCount]
      omega

/-- Witness for C1: at error percent 100 and draw 57, the proxy trace is
the sleep followed by the 500 envelope and contains no outbound call. -/
theorem proxy_error_shortcircuit_witness :
    proxy ⟨100, 0, 0, false⟩ "demosvc" "t" (some "svcb") "/proxy/svcb/echo" [] 57 =
      Event.sleep 0 ::
        writeResponseEvents "demosvc" "t" (mkRes 500 "" (some errInternal) none) ∧
    outboundCount
      (proxy ⟨100, 0, 0, false⟩ "demosvc" "t" (some "svcb") "/proxy/svcb/echo" [] 57) = 0 :=
  (proxy_error_shortcircuit ⟨100, 0, 0, false⟩ "demosvc" "t" "svcb" "/proxy/svcb/echo"
    [] 57 (by decide) (by decide)).1 rfl

/-- C8: a forwarded proxy request carries the cloned inbound headers with
exactly one `Proxied-By` entry for the current service appended after all
prior hops' entries, so two successive hops A→B starting from a trail-free
request deliver exactly `["A", "B"]`. -/
theorem proxied_by_trail (st : EpState) (svc tid host urlPath : String)
    (hdrs : List (String × String)) (draw : Int) (hfwd : st.errors ≤ draw) :
    proxy st svc tid (some host) urlPath hdrs draw =
      [Event.sleep st.duration,
        Event.outboundCall host (goTrimLeading urlPath ("/proxy/" ++ host))
          (forwardHeaders hdrs svc)] ∧
    proxiedByValues (forwardHeaders hdrs svc) = proxiedByValues hdrs ++ [svc] ∧
    (∀ (a b : String) (h0 : List (String × String)), proxiedByValues h0 = [] →
      proxiedByValues (forwardHeaders (forwardHeaders h0 a) b) = [a, b]) := by
  have hnd : ¬ draw < st.errors := by omega
  refine ⟨?_, ?_, ?_⟩
  · simp [proxy, if_neg hnd]
  · simp [proxiedByValues, forwardHeaders]
  · intro a b h0 hh
    have hh' : List.filterMap
        (fun p => if p.1 = "Proxied-By" then some p.2 else none) h0 = [] := hh
    simp [proxiedByValues, forwardHeaders, hh']

/-- Witness for C8: with error percent 0 and draw 57, hop B forwards a
request already proxied by A with trail exactly `["A", "B"]`. -/
theorem proxied_by_trail_witness :
    proxy ⟨0, 0, 0, false⟩ "B" "t" (some "svcc") "/proxy/svcc/echo"
        [("Proxied-By", "A")] 57 =
      [Event.sleep 0,
        Event.outboundCall "svcc" "/echo"
          (forwardHeaders [("Proxied-By", "A")] "B")] ∧
    proxiedByValues (forwardHeaders (forwardHeaders [] "A") "B") = ["A", "B"] := by
  have h := proxied_by_trail ⟨0, 0, 0, false⟩ "B" "t" "svcc" "/proxy/svcc/echo"
    [("Proxied-By", "A")] 57 (by decide)
  have htrim : goTrimLeading "/proxy/svcc/echo" ("/proxy/" ++ "svcc") = "/echo" := by decide
  refine ⟨?_, h.2.2 "A" "B" [] (by decide)⟩
  rw [h.1, htrim]

/-- C5: when the stored duplicate-header percent is 100 and the error draw
does not fire, the echo responder emits the success status and the two
conflicting content-type values `text/html` and `application/json`
before writing the body. -/
theorem echo_double_headers (st : EpState) (svc tid : String)
    (hdrs : List (String × String)) (errDraw hdrDraw : Int)
    (hh : st.headers = 100) (h0 : 0 ≤ hdrDraw) (h1 : hdrDraw < 100)
    (he : st.errors ≤ errDraw) :
    echoHandler st svc tid hdrs errDraw hdrDraw =
      Event.sleep st.duration :: Event.writeHeader 200 ::
        Event.addHeader "Content-Type" "text/html" ::
        Event.addHeader "Content-Type" "application/json" ::
        writeResponseEvents svc tid (mkRes 200 "" none (some hdrs)) ∧
    Event.addHeader "Content-Type" "text/html" ∈
      beforeBody (echoHandler st svc tid hdrs errDraw hdrDraw) ∧
    Event.addHeader "Content-Type" "application/json" ∈
      beforeBody (echoHandler st svc tid hdrs errDraw hdrDraw) := by
  have hne : ¬ errDraw < st.errors := by omega
  have hdl : hdrDraw < st.headers := by omega
  refine ⟨by simp [echoHandler, if_neg hne, if_pos hdl], ?_, ?_⟩ <;>
    simp [echoHandler, if_neg hne, if_pos hdl, beforeBody, writeResponseEvents,
      mkRes, isBody]

/-- Witness for C5: with duplicate-header percent 100, error percent 0 and
draws 13/57, the echo trace shows both conflicting content types before
the body. -/
theorem echo_double_headers_witness :
    echoHandler ⟨0, 100, 0, false⟩ "demosvc" "t" [("X-Req", "v")] 13 57 =
      Event.sleep 0 :: Event.writeHeader 200 ::
        Event.addHeader "Content-Type" "text/html" ::
        Event.addHeader "Content-Type" "application/json" ::
        writeResponseEvents "demosvc" "t" (mkRes 200 "" none (some [("X-Req", "v")])) ∧
    Event.addHeader "Content-Type" "text/html" ∈
      beforeBody (echoHandler ⟨0, 100, 0, false⟩ "demosvc" "t" [("X-Req", "v")] 13 57) ∧
    Event.addHeader "Content-Type" "application/json" ∈
      beforeBody (echoHandler ⟨0, 100, 0, false⟩ "demosvc" "t" [("X-Req", "v")] 13 57) :=
  echo_double_headers ⟨0, 100, 0, false⟩ "demosvc" "t" [("X-Req", "v")] 13 57
    rfl (by decide) (by decide) (by decide)

/-- C10: in the echo responder the error check precedes the
duplicate-header check — whenever the error draw fires, the handler
writes only the 500 `InternalFailure` envelope, adds no `text/html`
content type, and omits the echoed request headers; in particular with
error percent 100 this holds for every draw in `[0,100)` even when the
duplicate-header percent is 100. -/
theorem echo_error_precedence (st : EpState) (svc tid : String)
    (hdrs : List (String × String)) (errDraw hdrDraw : Int)
    (he : errDraw < st.errors) :
    echoHandler st svc tid hdrs errDraw hdrDraw =
      Event.sleep st.duration ::
        writeResponseEvents svc tid (mkRes 500 "" (some errInternal) none) ∧
    (∀ v, Event.addHeader "Content-Type" v ∈ echoHandler st svc tid hdrs errDraw hdrDraw →
      v = "application/json") ∧
    bodies (echoHandler st svc tid hdrs errDraw hdrDraw) =
      [{ service := svc, code := 500, traceID := tid, message := "",
          error := some errInternal, headers := none }] := by
  refine ⟨by simp [echoHandler, if_pos he], ?_, ?_⟩
  · intro v hv
    simp [echoHandler, if_pos he, writeResponseEvents, mkRes] at hv
    exact hv
  · simp [echoHandler, if_pos he, bodies, writeResponseEvents, mkRes]

/-- Witness for C10: with both percentages at 100 and draws 99/0, the echo
trace is just the latency sleep plus the 500 envelope with no echoed
headers and no `text/html` content type. -/
theorem echo_error_precedence_witness :
    echoHandler ⟨100, 100, 0, false⟩ "demosvc" "t" [("X-Req", "v")] 99 0 =
      Event.sleep 0 ::
        writeResponseEvents "demosvc" "t" (mkRes 500 "" (some errInternal) none) ∧
    bodies (echoHandler ⟨100, 100, 0, false⟩ "demosvc" "t" [("X-Req", "v")] 99 0) =
      [{ service := "demosvc", code := 500, traceID := "t", message := "",
          error := some errInternal, headers := none }] := by
  have h := echo_error_precedence ⟨100, 100, 0, false⟩ "demosvc" "t"
    [("X-Req", "v")] 99 0 (by decide)
  exact ⟨h.1, h.2.2⟩

/-- C6: a concurrency-emulator request with mode `serial` and duration 0
runs exactly 8 units of work inline, each opening the local span
`proc-i` tagged with the requested duration and finishing it, with all 8
span finishes in index order `proc-0` … `proc-7` occurring before the
response is written (the handler returns only after them). -/
theorem concurrency_serial_order (svc tid : String) :
    emulateConcurrency svc tid (some "0") (some "serial") =
      ((List.range 8).flatMap fun i => procEvents 0 i) ++
        writeResponseEvents svc tid (mkRes 200 "ran several local spans" none none) ∧
    finishNames ((List.range 8).flatMap fun i => procEvents 0 i) =
      ["proc-0", "proc-1", "proc-2", "proc-3",
        "proc-4", "proc-5", "proc-6", "proc-7"] ∧
    startNames ((List.range 8).flatMap fun i => procEvents 0 i) =
      ["proc-0", "proc-1", "proc-2", "proc-3",
        "proc-4", "proc-5", "proc-6", "proc-7"] ∧
    finishNames
      (writeResponseEvents svc tid (mkRes 200 "ran several local spans" none none)) = [] := by
  refine ⟨?_, by decide, by decide, ?_⟩
  · have hp : parseLatencyArg "0" = some 0 := by decide
    have hser : goToLower "serial" = "serial" := by decide
    simp [emulateConcurrency, hp, hser]
  · simp [finishNames, writeResponseEvents, mkRes]

/-- C9: the tracing-abstraction facade's startup validation succeeds
exactly when the selected backend name is in the supported set and some
provided instrumenter carries that name; otherwise it returns an
error. -/
theorem observability_validate_spec (name : String) (provided : List String) :
    obsValidate name provided = [] ↔
      name ∈ supportedInstrumenters ∧ name ∈ provided := by
  unfold obsValidate
  split_ifs with h1 h2 h2 <;> simp_all

/-- C2 counterexample: a downstream 503 with body `oops` is absorbed into
a local 200 envelope whose message contains the body text but not the
downstream status `503` — the claim that the message embeds the
downstream status fails here. -/
theorem absorb_status_embedding_counterexample :
    modifyResponse "demosvc" "t" "http://svcb/echo" 503 "oops" =
      ProxyDecision.substitute
        (writeResponseEvents "demosvc" "t"
          (mkRes 200 "demosvc called http://svcb/echo and got error return: oops"
            none none)) ∧
    containsSub "demosvc called http://svcb/echo and got error return: oops"
      "oops" = true ∧
    containsSub "demosvc called http://svcb/echo and got error return: oops"
      "503" = false := by decide

/-- C2 (amended): with failure absorption on, every non-200 downstream
response is replaced by a local 200 success envelope whose message embeds
the downstream target and body (but not the numeric downstream status),
while a 200 downstream response passes through unmodified. -/
theorem absorb_downstream_failures (svc tid target : String) (status : Int)
    (body : String) (hne : status ≠ 200) :
    modifyResponse svc tid target status body =
      ProxyDecision.substitute
        (writeResponseEvents svc tid
          (mkRes 200 (svc ++ " called " ++ target ++ " and got error return: " ++ body)
            none none)) ∧
    containsSub (svc ++ " called " ++ target ++ " and got error return: " ++ body)
      body = true ∧
    modifyResponse svc tid target 200 body = ProxyDecision.forward := by
  refine ⟨by simp [modifyResponse, if_neg hne], ?_, by simp [modifyResponse]⟩
  exact containsSub_append_right
    (svc ++ " called " ++ target ++ " and got error return: ") body

/-- Witness for C2 (amended): a downstream 418 with body `teapot` becomes
a local 200 envelope whose message contains `teapot`, and a downstream
200 is forwarded unaltered. -/
theorem absorb_downstream_failures_witness :
    modifyResponse "demosvc" "t" "http://svcb/echo" 418 "teapot" =
      ProxyDecision.substitute
        (writeResponseEvents "demosvc" "t"
          (mkRes 200 "demosvc called http://svcb/echo and got error return: teapot"
            none none)) ∧
    containsSub "demosvc called http://svcb/echo and got error return: teapot"
      "teapot" = true ∧
    modifyResponse "demosvc" "t" "http://svcb/echo" 200 "teapot" =
      ProxyDecision.forward :=
  absorb_downstream_failures "demosvc" "t" "http://svcb/echo" 418 "teapot" (by decide)

end TopologyTester
